import Mathlib

/-!
Shallow embedding of `backend/app/services/analysis_service.py` (class
`AnalysisService`) from the Telling_Creative_Stories repository, together
with theorems settling the spec claims about it.

Text is modelled as `List Char`.  All counts and scores arising in the
service are non-negative Python ints, modelled as `Nat`.
-/

set_option maxRecDepth 16000

namespace StoryAnalysis

/-- Helper for Python `str.count(sub)`: scans left to right; `skip > 0`
means we are still consuming a previously matched occurrence. -/
def countOccAux (pat : List Char) : List Char → Nat → Nat
  | [], _ => 0
  | _ :: rest, Nat.succ k => countOccAux pat rest k
  | c :: rest, 0 =>
    if pat.isPrefixOf (c :: rest) then 1 + countOccAux pat rest (pat.length - 1)
    else countOccAux pat rest 0

/-- Python `s.count(pat)`: number of non-overlapping occurrences of `pat`
in `s`, scanning left to right (`s.count("") == len(s)+1` included). -/
def countOcc (pat s : List Char) : Nat :=
  if pat.isEmpty then s.length + 1 else countOccAux pat s 0

/-- Python `pat in s`: substring containment. -/
def containsSub (pat : List Char) : List Char → Bool
  | [] => pat.isEmpty
  | c :: rest => pat.isPrefixOf (c :: rest) || containsSub pat rest

/-- Python `str.lower()` (ASCII text). -/
def lowerStr (s : List Char) : List Char := s.map Char.toLower

/-- Python whitespace (the characters `str.split()`/`str.strip()` use). -/
def isPyWs (c : Char) : Bool :=
  c = ' ' || c = '\t' || c = '\n' || c = '\r' || c = Char.ofNat 11 || c = Char.ofNat 12

/-- Helper for `pyWords`; `acc` is the reversed current word. -/
def pyWordsAux : List Char → List Char → List (List Char)
  | [], acc => if acc.isEmpty then [] else [acc.reverse]
  | c :: rest, acc =>
    if isPyWs c then
      if acc.isEmpty then pyWordsAux rest [] else acc.reverse :: pyWordsAux rest []
    else pyWordsAux rest (c :: acc)

/-- Python `str.split()` with no argument: maximal runs of non-whitespace. -/
def pyWords (s : List Char) : List (List Char) := pyWordsAux s []

/-- Python `str.strip()`. -/
def pyStrip (s : List Char) : List Char :=
  ((s.dropWhile isPyWs).reverse.dropWhile isPyWs).reverse

/-- A sentence delimiter of `re.split(r'[.!?]+', text)`. -/
def isSentenceDelim (c : Char) : Bool := c = '.' || c = '!' || c = '?'

/-- `re.split(r'[.!?]+', text)`: split on maximal runs of `.` `!` `?`,
keeping the (possibly empty) fragments, exactly as Python does. -/
def splitSentences : List Char → List (List Char)
  | [] => [[]]
  | c :: rest =>
    if isSentenceDelim c then
      match rest with
      | d :: _ => if isSentenceDelim d then splitSentences rest else [] :: splitSentences rest
      | [] => [[], []]
    else
      match splitSentences rest with
      | s :: ss => (c :: s) :: ss
      | [] => [[c]]

/-- After a `<`: the remainder following the first `>` (the `[^>]+>` part
already saw at least one non-`>` character). -/
def tagEndGo : List Char → Option (List Char)
  | [] => none
  | c :: rest => if c = '>' then some rest else tagEndGo rest

/-- After a `<`: remainder of the text following the shortest `<[^>]+>`
match, or `none` when the regex does not match at this `<`. -/
def tagEnd : List Char → Option (List Char)
  | [] => none
  | c :: rest => if c = '>' then none else tagEndGo rest

/-- Worker for `re.sub(r'<[^>]+>', '', s)`; `fuel` only drives the
termination argument and `stripTags` supplies enough of it. -/
def stripTagsGo : Nat → List Char → List Char
  | 0, s => s
  | _ + 1, [] => []
  | fuel + 1, c :: rest =>
    if c = '<' then
      match tagEnd rest with
      | some rest2 => stripTagsGo fuel rest2
      | none => c :: stripTagsGo fuel rest
    else c :: stripTagsGo fuel rest

/-- `re.sub(r'<[^>]+>', '', s)`: drop every shortest `<...>` tag. -/
def stripTags (s : List Char) : List Char := stripTagsGo s.length s

/-- Python `str.title()` (ASCII text): uppercase a letter that follows a
non-letter, lowercase every other letter. -/
def pyTitleAux : Bool → List Char → List Char
  | _, [] => []
  | prevAlpha, c :: rest =>
    (if c.isAlpha then (if prevAlpha then c.toLower else c.toUpper) else c)
      :: pyTitleAux c.isAlpha rest

/-- Python `str.title()`. -/
def pyTitle (s : List Char) : List Char := pyTitleAux false s

/-! ## The fixed lexicons (`AnalysisService.__init__`, lines 16–32) -/

def tensionKeywords : List (List Char) :=
  ["conflict".toList, "tension".toList, "danger".toList, "threat".toList,
   "fear".toList, "suspense".toList, "crisis".toList]

def joyKeywords : List (List Char) :=
  ["happy".toList, "joy".toList, "laugh".toList, "smile".toList,
   "celebration".toList, "triumph".toList]

def sadnessKeywords : List (List Char) :=
  ["sad".toList, "cry".toList, "tears".toList, "grief".toList,
   "loss".toList, "mourning".toList]

def angerKeywords : List (List Char) :=
  ["angry".toList, "rage".toList, "fury".toList, "mad".toList,
   "furious".toList, "hostile".toList]

def loveKeywords : List (List Char) :=
  ["love".toList, "romance".toList, "affection".toList, "tender".toList,
   "caring".toList, "devotion".toList]

/-- `self.emotion_keywords`, in dict insertion order. -/
def emotionKeywords : List (String × List (List Char)) :=
  [("tension", tensionKeywords), ("joy", joyKeywords), ("sadness", sadnessKeywords),
   ("anger", angerKeywords), ("love", loveKeywords)]

/-- `self.pacing_indicators['action']`. -/
def actionKeywords : List (List Char) :=
  ["ran".toList, "rushed".toList, "fought".toList, "attacked".toList,
   "chased".toList, "battle".toList, "explosion".toList]

/-- `self.pacing_indicators['description']`. -/
def descriptionKeywords : List (List Char) :=
  ["looked".toList, "appeared".toList, "seemed".toList, "was".toList,
   "were".toList, "beautiful".toList, "dark".toList]

/-- `sum(text.count(keyword) for keyword in keywords)`. -/
def keywordCount (kws : List (List Char)) (t : List Char) : Nat :=
  (kws.map (fun k => countOcc k t)).sum

/-! ## Data model (`schemas.py`) -/

/-- The fields of `StoryNode` that the analysis reads: `title`, raw
`content`, and the `created_at` ordering key (instants as `Nat`). -/
structure Node where
  title : String
  content : String
  created_at : Nat
deriving DecidableEq

/-- `EmotionalArc.emotional_points` entries (lines 96–101). -/
structure EmotionalPoint where
  scene : Nat
  title : String
  tension : Nat
  dominant_emotion : String
deriving DecidableEq

structure EmotionalArc where
  tension_score : Nat
  peak_moment : String
  emotional_points : List EmotionalPoint
deriving DecidableEq

/-- `character_arcs` entries (lines 148–152). -/
structure CharacterArcEntry where
  name : List Char
  arc_strength : Nat
  mentions : Nat
deriving DecidableEq

/-- `relationship_matrix` entries: the Python dict key is the string
`f"{char1}-{char2}"`, modelled as the pair `(char1, char2)` (equivalent,
since extracted names match `[A-Z][a-z]+` and so contain no dash); the
value `{'strength': s, 'type': ty}` is the pair `(s, ty)`. -/
structure CharacterDevelopment where
  protagonist_growth : String
  relationship_matrix : List ((List Char × List Char) × (Nat × String))
  character_arcs : List CharacterArcEntry
deriving DecidableEq

/-- `theme_mentions` entries (lines 266–270). -/
structure ThemeMention where
  scene : Nat
  title : String
  mentions : Nat
deriving DecidableEq

structure ThemeConsistency where
  core_theme : String
  consistency_score : Nat
  theme_mentions : List ThemeMention
deriving DecidableEq

structure PacingAnalysis where
  action_vs_dialogue_ratio : String
  slow_sections : List String
  pacing_score : Nat
deriving DecidableEq

structure NarrativeDNA where
  emotional_arc : EmotionalArc
  character_development : CharacterDevelopment
  theme_consistency : ThemeConsistency
  pacing_analysis : PacingAnalysis
  comparative_insights : List String
  analysis_timestamp : Nat
deriving DecidableEq

/-! ## Normalisation (`_extract_story_text`, lines 60–72) -/

/-- Insert behind every element with a strictly smaller key; with
`sortNodes` this is a stable sort by `created_at`, matching Python
`sorted(nodes, key=lambda x: x.created_at)` (Timsort is stable). -/
def insertNode (n : Node) : List Node → List Node
  | [] => [n]
  | m :: rest =>
    if m.created_at < n.created_at then m :: insertNode n rest else n :: m :: rest

def sortNodes : List Node → List Node
  | [] => []
  | n :: rest => insertNode n (sortNodes rest)

/-- Python `' '.join(parts)`. -/
def joinSpace : List (List Char) → List Char
  | [] => []
  | [p] => p
  | p :: rest => p ++ ' ' :: joinSpace rest

/-- Lines 60–72 (`_extract_story_text`): sort by `created_at`, strip tags,
keep the stripped text of scenes that are not blank, join with a space. -/
def extractStoryText (nodes : List Node) : List Char :=
  joinSpace ((sortNodes nodes).filterMap (fun n =>
    let clean := stripTags n.content.toList
    if (pyStrip clean).isEmpty then none else some (pyStrip clean)))

/-- Line 81 (also 263, 297): a scene's tag-stripped, lowercased content. -/
def cleanLower (n : Node) : List Char := lowerStr (stripTags n.content.toList)

/-! ## Emotional arc (`_analyze_emotional_arc`, lines 74–117) -/

/-- The context words of line 89, in list order. -/
def contextWords : List (List Char) :=
  ["climax".toList, "confrontation".toList, "revelation".toList]

/-- Lines 84–93: one scene's tension score from its lowercased text. -/
def tensionScoreOfText (t : List Char) : Nat :=
  let base := 10 * keywordCount tensionKeywords t
  min 100 (if contextWords.any (fun w => containsSub w t) then base + 30 else base)

/-- Python `max(d, key=d.get)` over an association list in iteration
order: strict improvements move the best, so the first key attaining the
maximal value wins. -/
def pyMaxByVal : String × Nat → List (String × Nat) → String
  | best, [] => best.1
  | best, y :: rest => if y.2 > best.2 then pyMaxByVal y rest else pyMaxByVal best rest

/-- Lines 119–130 (`_detect_dominant_emotion`). -/
def detectDominantEmotion (t : List Char) : String :=
  let counts := emotionKeywords.map (fun p => (p.1, keywordCount p.2 t))
  if counts.all (fun p => p.2 == 0) then "neutral"
  else
    match counts with
    | [] => "neutral"
    | c :: cs => pyMaxByVal c cs

/-- Lines 96–101: the `emotional_points` built alongside the loop. -/
def emotionalPointsOf (sorted : List Node) : List EmotionalPoint :=
  sorted.enum.map (fun p =>
    { scene := p.1 + 1, title := p.2.title,
      tension := tensionScoreOfText (cleanLower p.2),
      dominant_emotion := detectDominantEmotion (cleanLower p.2) })

/-- Lines 74–117 (`_analyze_emotional_arc`); the unused `full_text`
parameter of the Python method is omitted.  `int(statistics.mean(l))` on
scores in `[0,100]` is the floor of the exact mean, `l.sum / l.length`. -/
def analyzeEmotionalArc (nodes : List Node) : EmotionalArc :=
  let sorted := sortNodes nodes
  let tensions := sorted.map (fun n => tensionScoreOfText (cleanLower n))
  let points := emotionalPointsOf sorted
  match tensions with
  | [] =>
    { tension_score := 0, peak_moment := "No peak identified", emotional_points := points }
  | _ :: _ =>
    let m := tensions.foldl max 0
    let idx := tensions.findIdx (fun x => x == m)
    { tension_score := tensions.sum / tensions.length,
      peak_moment := (sorted.getD idx { title := "", content := "", created_at := 0 }).title,
      emotional_points := points }

/-! ## Character analysis (lines 132–225) -/

/-- The `common_words` stop-set of line 169 (only membership is used). -/
def commonWords : List (List Char) :=
  ["The".toList, "And".toList, "But".toList, "When".toList, "Where".toList,
   "What".toList, "How".toList, "Why".toList, "This".toList, "That".toList]

/-- A regex word character (`\w` over ASCII text). -/
def isWordChar (c : Char) : Bool := c.isAlphanum || c = '_'

/-- Helper for `wordRuns`; `acc` is the reversed current run. -/
def wordRunsAux : List Char → List Char → List (List Char)
  | [], acc => if acc.isEmpty then [] else [acc.reverse]
  | c :: rest, acc =>
    if isWordChar c then wordRunsAux rest (c :: acc)
    else if acc.isEmpty then wordRunsAux rest [] else acc.reverse :: wordRunsAux rest []

/-- The maximal runs of word characters of a text, in order. -/
def wordRuns (s : List Char) : List (List Char) := wordRunsAux s []

/-- Whether a maximal word run is shaped `[A-Z][a-z]+`. -/
def isNameToken : List Char → Bool
  | [] => false
  | c :: rest => c.isUpper && !rest.isEmpty && rest.all Char.isLower

/-- `re.findall(r'\b[A-Z][a-z]+\b', text)` (line 163): exactly the maximal
word runs shaped `[A-Z][a-z]+` — a candidate adjoining another word
character fails one of the `\b` boundaries, and `[a-z]+` cannot stop
early, because the following character would again be a word character. -/
def findNameTokens (t : List Char) : List (List Char) :=
  (wordRuns t).filter isNameToken

/-- The keys of `collections.Counter(words)` in first-occurrence order
(Counter is a dict, so insertion order is iteration order). -/
def firstOccs (l : List (List Char)) : List (List Char) :=
  l.foldl (fun acc w => if w ∈ acc then acc else acc ++ [w]) []

/-- Lines 160–173 (`_extract_character_names`). -/
def extractCharacterNames (t : List Char) : List (List Char) :=
  let words := findNameTokens t
  ((firstOccs words).filter (fun w =>
    decide (3 ≤ words.count w) && !(commonWords.contains w) && decide (2 < w.length))).take 10

/-- The `development_indicators` of lines 177–180. -/
def developmentIndicators : List (List Char) :=
  ["learned".toList, "realized".toList, "understood".toList, "changed".toList,
   "grew".toList, "developed".toList, "discovered".toList, "found".toList,
   "became".toList, "transformed".toList]

/-- Lines 175–187 (`_count_protagonist_development`). -/
def countProtagonistDevelopment (t : List Char) : Nat :=
  keywordCount developmentIndicators (lowerStr t)

/-- Lines 200–202: number of sentences of `t` containing both names,
case-insensitively. -/
def coocCount (c1 c2 t : List Char) : Nat :=
  ((splitSentences t).filter (fun s =>
    containsSub (lowerStr c1) (lowerStr s) && containsSub (lowerStr c2) (lowerStr s))).length

/-- Lines 189–210 (`_build_relationship_matrix`): pairs
`(characters[i], characters[j])` for `i` over `characters[:5]` and `j`
over `characters[i+1:6]`; an edge is recorded only when the sentence
co-occurrence count is positive. -/
def buildRelationshipMatrix (characters : List (List Char)) (t : List Char) :
    List ((List Char × List Char) × (Nat × String)) :=
  if characters.length < 2 then []
  else
    (characters.take 5).enum.flatMap (fun p =>
      ((characters.take 6).drop (p.1 + 1)).filterMap (fun c2 =>
        let k := coocCount p.2 c2 t
        if 0 < k then some ((p.2, c2), (min 10 k, "connected")) else none))

/-- The `development_words` of line 221. -/
def arcDevelopmentWords : List (List Char) :=
  ["changed".toList, "learned".toList, "grew".toList, "realized".toList,
   "became".toList, "transformed".toList]

/-- Lines 212–225 (`_analyze_character_arc`). -/
def analyzeCharacterArc (character t : List Char) : Nat :=
  min 10 ((splitSentences t).filter (fun s =>
    containsSub (lowerStr character) (lowerStr s) &&
    arcDevelopmentWords.any (fun w => containsSub w (lowerStr s)))).length

/-- Lines 132–158 (`_analyze_character_development`); the Python method
also receives the node list but reads only `full_text`. -/
def analyzeCharacterDevelopment (full_text : List Char) : CharacterDevelopment :=
  let characters := extractCharacterNames full_text
  let growth := min 100 (max 0 (countProtagonistDevelopment full_text * 5))
  { protagonist_growth := toString growth ++ "% completed",
    relationship_matrix := buildRelationshipMatrix characters full_text,
    character_arcs := (characters.take 5).map (fun c =>
      { name := c, arc_strength := analyzeCharacterArc c full_text,
        mentions := countOcc (lowerStr c) (lowerStr full_text) }) }

/-! ## Theme consistency (`_analyze_theme_consistency`, lines 227–276) -/

def loveThemeKeywords : List (List Char) :=
  ["love".toList, "romance".toList, "relationship".toList, "heart".toList,
   "affection".toList]

def betrayalKeywords : List (List Char) :=
  ["betray".toList, "deceive".toList, "lie".toList, "cheat".toList,
   "backstab".toList]

def redemptionKeywords : List (List Char) :=
  ["redeem".toList, "forgive".toList, "second chance".toList, "make amends".toList]

def powerKeywords : List (List Char) :=
  ["power".toList, "control".toList, "authority".toList, "dominance".toList,
   "rule".toList]

def identityKeywords : List (List Char) :=
  ["identity".toList, "self".toList, "who am i".toList, "belong".toList,
   "purpose".toList]

def freedomKeywords : List (List Char) :=
  ["freedom".toList, "liberty".toList, "escape".toList, "independence".toList,
   "free".toList]

def justiceKeywords : List (List Char) :=
  ["justice".toList, "fair".toList, "right".toList, "wrong".toList,
   "moral".toList]

/-- The `theme_keywords` dict of lines 230–238, in insertion order. -/
def themeKeywords : List (String × List (List Char)) :=
  [("love", loveThemeKeywords), ("betrayal", betrayalKeywords),
   ("redemption", redemptionKeywords), ("power", powerKeywords),
   ("identity", identityKeywords), ("freedom", freedomKeywords),
   ("justice", justiceKeywords)]

/-- Dict lookup `theme_keywords[name]`. -/
def themeKeywordsFor (name : String) : List (List Char) :=
  match themeKeywords.find? (fun p => p.1 == name) with
  | some p => p.2
  | none => []

/-- Lines 240–245: `theme_scores` as an association list in dict order. -/
def themeScoresOf (full_text : List Char) : List (String × Nat) :=
  themeKeywords.map (fun p => (p.1, keywordCount p.2 (lowerStr full_text)))

/-- `max(theme_scores.values())` (line 248); `0` for an empty dict. -/
def maxThemeScore (full_text : List Char) : Nat :=
  ((themeScoresOf full_text).map (fun p => p.2)).foldl max 0

/-- Line 249: `max(theme_scores, key=theme_scores.get)`. -/
def coreThemeOf (full_text : List Char) : String :=
  match themeScoresOf full_text with
  | [] => "No clear theme"
  | c :: cs => pyMaxByVal c cs

/-- Line 250: the dict lookup `theme_scores[core_theme]` (`0` impossible
for the names actually looked up). -/
def themeScoreLookup (full_text : List Char) (name : String) : Nat :=
  match (themeScoresOf full_text).find? (fun p => p.1 == name) with
  | some p => p.2
  | none => 0

/-- Lines 227–276 (`_analyze_theme_consistency`).  Python computes
`int((strength / max(1, total_words)) * 1000)` in floating point; in
exact arithmetic that truncation is `strength * 1000 / max 1 total_words`
(they agree whenever the float division is exact — e.g. whenever
`max 1 total_words` is a power of two). -/
def analyzeThemeConsistency (nodes : List Node) (full_text : List Char) : ThemeConsistency :=
  if 0 < maxThemeScore full_text then
    let core := coreThemeOf full_text
    let strength := themeScoreLookup full_text core
    let total_words := (pyWords full_text).length
    { core_theme := (pyTitle core.toList).asString,
      consistency_score := min 100 (strength * 1000 / max 1 total_words),
      theme_mentions := (sortNodes nodes).enum.filterMap (fun p =>
        let m := keywordCount (themeKeywordsFor core) (cleanLower p.2)
        if 0 < m then some { scene := p.1 + 1, title := p.2.title, mentions := m } else none) }
  else
    { core_theme := (pyTitle ("No clear theme").toList).asString,
      consistency_score := 0, theme_mentions := [] }

/-! ## Pacing (`_analyze_pacing`, lines 278–311) -/

/-- Lines 278–311 (`_analyze_pacing`).  The percentages are Python
`int((count / total) * 100)` in floating point; in exact arithmetic that
is `count * 100 / total` (agreeing whenever the division is exact; the
claims only touch the `total = 0` default).  In exact arithmetic
`action_ratio + dialogue_ratio ≤ 100`, so the second component of the
ratio string is a natural number. -/
def analyzePacing (nodes : List Node) (full_text : List Char) : PacingAnalysis :=
  let tl := lowerStr full_text
  let action_count := keywordCount actionKeywords tl
  let dialogue_count := full_text.count '"' + full_text.count (Char.ofNat 39)
  let description_count := keywordCount descriptionKeywords tl
  let total := action_count + dialogue_count + description_count
  { action_vs_dialogue_ratio :=
      if 0 < total then
        let ar := action_count * 100 / total
        let dr := dialogue_count * 100 / total
        toString (ar + dr) ++ "/" ++ toString (100 - (ar + dr))
      else "50/50",
    slow_sections := (sortNodes nodes).enum.filterMap (fun p =>
      let node_text := cleanLower p.2
      if 100 < (pyWords node_text).length ∧ keywordCount actionKeywords node_text = 0 then
        some ("Scene " ++ toString (p.1 + 1) ++ ": " ++ p.2.title)
      else none),
    pacing_score := min 100 (max 10 (action_count * 2 + dialogue_count / 2)) }

/-! ## Comparative insights (`_generate_comparative_insights`, 313–334) -/

/-- Rule of line 322: `scene_count >= 10 and 'mystery' in full_text.lower()`. -/
def mysteryRule (nodes : List Node) (full_text : List Char) : Prop :=
  10 ≤ nodes.length ∧ containsSub ("mystery").toList (lowerStr full_text) = true

/-- Rule of line 325: `word_count > 5000 and 'character' in full_text.lower()`. -/
def ensembleRule (full_text : List Char) : Prop :=
  5000 < (pyWords full_text).length ∧ containsSub ("character").toList (lowerStr full_text) = true

/-- Rule of line 328: `'love' in ... and 'conflict' in ...`. -/
def romanceRule (full_text : List Char) : Prop :=
  containsSub ("love").toList (lowerStr full_text) = true ∧
    containsSub ("conflict").toList (lowerStr full_text) = true

instance (nodes : List Node) (t : List Char) : Decidable (mysteryRule nodes t) :=
  inferInstanceAs (Decidable (And _ _))

instance (t : List Char) : Decidable (ensembleRule t) :=
  inferInstanceAs (Decidable (And _ _))

instance (t : List Char) : Decidable (romanceRule t) :=
  inferInstanceAs (Decidable (And _ _))

def mysteryInsight : String :=
  "Your structure resembles Agatha Christie\x27s mysteries with multiple scenes building tension"

def ensembleInsight : String :=
  "Character dynamics similar to ensemble narratives like \x27Game of Thrones\x27"

def romanceInsight : String :=
  "Romance with conflict elements reminiscent of Jane Austen\x27s style"

/-- Line 332: the fallback insight (the source spells it with an ASCII
hyphen). -/
def fallbackInsight : String := "Unique narrative structure - forge your own path!"

/-- Lines 313–334 (`_generate_comparative_insights`). -/
def generateComparativeInsights (nodes : List Node) (full_text : List Char) : List String :=
  let insights :=
    (if mysteryRule nodes full_text then [mysteryInsight] else []) ++
    (if ensembleRule full_text then [ensembleInsight] else []) ++
    (if romanceRule full_text then [romanceInsight] else [])
  if insights.isEmpty then [fallbackInsight] else insights

/-! ## Orchestrator (`analyze_story`, lines 34–58) -/

/-- Lines 34–58 (`analyze_story`).  `projectInfo` stands for the request's
`project_info` metadata, which the computation never reads; `now` models
the `datetime.now()` instant read when assembling the profile. -/
def analyzeStory (nodes : List Node) (projectInfo : String) (now : Nat) : NarrativeDNA :=
  let full_text := extractStoryText nodes
  { emotional_arc := analyzeEmotionalArc nodes,
    character_development := analyzeCharacterDevelopment full_text,
    theme_consistency := analyzeThemeConsistency nodes full_text,
    pacing_analysis := analyzePacing nodes full_text,
    comparative_insights := generateComparativeInsights nodes full_text,
    analysis_timestamp := now }

/-! ## Claim-side definitions and concrete inputs -/

/-- Spec-side dominant-emotion selection, following C5's wording: the
earliest-declared category among tension, joy, sadness, anger, love
attaining the maximum total count; `"neutral"` when all five are zero. -/
def specDominantEmotion (t : List Char) : String :=
  let a := keywordCount tensionKeywords t
  let b := keywordCount joyKeywords t
  let c := keywordCount sadnessKeywords t
  let d := keywordCount angerKeywords t
  let e := keywordCount loveKeywords t
  let m := max a (max b (max c (max d e)))
  if m = 0 then "neutral"
  else if a = m then "tension"
  else if b = m then "joy"
  else if c = m then "sadness"
  else if d = m then "anger"
  else "love"

/-- Claim-side consistency score, following C7's wording: the rounded
(here: half-up; the exhibited inputs are tie-free, so the convention does
not matter) ratio `themeScore/max(1,totalWords) × 1000`, clamped. -/
def roundedConsistencyScore (strength total_words : Nat) : Nat :=
  min 100 ((2 * (strength * 1000) + max 1 total_words) / (2 * max 1 total_words))

/-- A single scene with love-theme score 3 spread over 32 words.  The
word count is a power of two, so Python's float computation
`int((3 / 32) * 1000)` is exact: `3 / 32` and `93.75` are dyadic. -/
def c7Node : Node :=
  { title := "Theme",
    content := "love love love" ++ String.join (List.replicate 29 " zzz"),
    created_at := 0 }

/-- First scene of the C10 input: the name `Alice` occurs only after the
scene's last sentence terminator. -/
def crossSceneNodeA : Node :=
  { title := "One", content := "It began. Then Alice saw Alice and Alice ran", created_at := 0 }

/-- Second scene of the C10 input: the name `Bob` occurs only before the
scene's first sentence terminator. -/
def crossSceneNodeB : Node :=
  { title := "Two", content := "with Bob while Bob and Bob watched. The end.", created_at := 1 }

/-! ## Theorems -/

/-- C1 counterexample: the claim as stated fails on the code, because
`analyze_story` stamps `analysis_timestamp = datetime.now()`; two calls on
the same scene sequence and metadata (here at clock instants 0 and 1) do
not return field-wise equal profiles. -/
theorem analysis_determinism_counterexample :
    analyzeStory [] "story" 0 ≠ analyzeStory [] "story" 1 := by
  decide

/-- C1 (amended): two calls of `analyze` on the same scene sequence and
project metadata agree on every field of the profile — string ratios and
insight ordering included — except `analysis_timestamp`, which records
the wall-clock instant of each call. -/
theorem analysis_determinism_modulo_timestamp (nodes : List Node) (p : String)
    (t1 t2 : Nat) :
    (analyzeStory nodes p t1).emotional_arc = (analyzeStory nodes p t2).emotional_arc ∧
    (analyzeStory nodes p t1).character_development =
      (analyzeStory nodes p t2).character_development ∧
    (analyzeStory nodes p t1).theme_consistency = (analyzeStory nodes p t2).theme_consistency ∧
    (analyzeStory nodes p t1).pacing_analysis = (analyzeStory nodes p t2).pacing_analysis ∧
    (analyzeStory nodes p t1).comparative_insights =
      (analyzeStory nodes p t2).comparative_insights :=
  ⟨rfl, rfl, rfl, rfl, rfl⟩

/-- C2 counterexample: on zero scenes the code returns
`core_theme = "No Clear Theme"` — line 273 title-cases the sentinel
`"No clear theme"` — so the claimed field value is wrong. -/
theorem empty_input_counterexample :
    (analyzeStory [] "" 0).theme_consistency.core_theme ≠ "No clear theme" := by
  decide

/-- C2 (amended): zero scenes yield peak moment `"No peak identified"`,
overall tension `0`, core theme `"No Clear Theme"` (the title-cased
sentinel), consistency `0`, ratio `"50/50"`, and exactly one fallback
comparative insight. -/
theorem empty_input_profile (p : String) (t : Nat) :
    (analyzeStory [] p t).emotional_arc.peak_moment = "No peak identified" ∧
    (analyzeStory [] p t).emotional_arc.tension_score = 0 ∧
    (analyzeStory [] p t).theme_consistency.core_theme = "No Clear Theme" ∧
    (analyzeStory [] p t).theme_consistency.consistency_score = 0 ∧
    (analyzeStory [] p t).pacing_analysis.action_vs_dialogue_ratio = "50/50" ∧
    (analyzeStory [] p t).comparative_insights = [fallbackInsight] :=
  ⟨rfl, rfl, rfl, rfl, rfl, rfl⟩

/-- C9: keyword scoring is plain substring counting without word
boundaries.  `"made"` contains the anger keyword `"mad"` although its only
whitespace token is `"made"`, which is no emotion keyword — so its
dominant emotion is `"anger"`, not `"neutral"`; likewise `"washed"` gives
a positive description count via `"was"`, and `"brightness"` a positive
justice theme score via `"right"`, though neither text has any keyword as
a standalone word. -/
theorem substring_matching_embedded_keywords :
    detectDominantEmotion ("made").toList = "anger" ∧
    detectDominantEmotion ("made").toList ≠ "neutral" ∧
    pyWords ("made").toList = [("made").toList] ∧
    (emotionKeywords.all fun p => !(p.2.contains ("made").toList)) = true ∧
    0 < keywordCount descriptionKeywords ("washed").toList ∧
    pyWords ("washed").toList = [("washed").toList] ∧
    (!(descriptionKeywords ++ actionKeywords).contains ("washed").toList) = true ∧
    0 < keywordCount justiceKeywords ("brightness").toList ∧
    pyWords ("brightness").toList = [("brightness").toList] ∧
    (themeKeywords.all fun p => !(p.2.contains ("brightness").toList)) = true := by
  decide

/-- A positive Python `count` implies containment (`pat in s`). -/
theorem containsSub_of_countOcc_pos (pat : List Char) :
    ∀ s, 0 < countOcc pat s → containsSub pat s = true := by
  intro s
  unfold countOcc
  by_cases hp : pat.isEmpty
  · have hpe : pat = [] := List.isEmpty_iff.mp hp
    subst hpe
    cases s <;> intro _ <;> simp [containsSub, List.isPrefixOf]
  · simp only [hp, Bool.false_eq_true, if_false]
    induction s with
    | nil => intro h; simp [countOccAux] at h
    | cons c rest ih =>
      intro h
      by_cases hpre : pat.isPrefixOf (c :: rest)
      · simp [containsSub, hpre]
      · rw [countOccAux, if_neg hpre] at h
        simp [containsSub, ih h]

/-- C4: a scene whose lowercased stripped text contains `"danger"` exactly
twice and `"revelation"` at least once, no other tension keyword, and
neither `"climax"` nor `"confrontation"`, gets tension score
10 × 2 + 30 = 50. -/
theorem tension_score_danger_revelation (t : List Char)
    (hdanger : countOcc ("danger").toList t = 2)
    (hrev : 0 < countOcc ("revelation").toList t)
    (hconflict : countOcc ("conflict").toList t = 0)
    (htension : countOcc ("tension").toList t = 0)
    (hthreat : countOcc ("threat").toList t = 0)
    (hfear : countOcc ("fear").toList t = 0)
    (hsuspense : countOcc ("suspense").toList t = 0)
    (hcrisis : countOcc ("crisis").toList t = 0)
    (_hclimax : containsSub ("climax").toList t = false)
    (_hconfrontation : containsSub ("confrontation").toList t = false) :
    tensionScoreOfText t = 50 := by
  have hrevc : containsSub ("revelation").toList t = true :=
    containsSub_of_countOcc_pos _ t hrev
  unfold tensionScoreOfText keywordCount tensionKeywords contextWords
  simp only [List.map_cons, List.map_nil, List.sum_cons, List.sum_nil,
    List.any_cons, List.any_nil]
  rw [hdanger, hconflict, htension, hthreat, hfear, hsuspense, hcrisis, hrevc]
  simp

/-- C4 witness: the scene text `"danger danger revelation"` satisfies all
the hypotheses and scores 50. -/
theorem tension_score_danger_revelation_witness :
    tensionScoreOfText ("danger danger revelation").toList = 50 :=
  tension_score_danger_revelation ("danger danger revelation").toList
    (by decide) (by decide) (by decide) (by decide) (by decide) (by decide)
    (by decide) (by decide) (by decide) (by decide)

/-- Python's left fold `max(d, key=d.get)` over the five emotion entries
picks the earliest entry attaining the maximum value. -/
theorem pyMaxByVal_five (a b c d e : Nat) :
    pyMaxByVal ("tension", a) [("joy", b), ("sadness", c), ("anger", d), ("love", e)] =
      (if a = max a (max b (max c (max d e))) then "tension"
       else if b = max a (max b (max c (max d e))) then "joy"
       else if c = max a (max b (max c (max d e))) then "sadness"
       else if d = max a (max b (max c (max d e))) then "anger"
       else "love") := by
  simp only [pyMaxByVal]
  split_ifs <;> first | rfl | omega

/-- C5: `_detect_dominant_emotion` returns the emotion category with the
highest keyword-occurrence total, ties broken by declaration order
(tension, joy, sadness, anger, love), and `"neutral"` when every count is
zero — i.e. it coincides with the spec-side selection. -/
theorem dominant_emotion_selection (t : List Char) :
    detectDominantEmotion t = specDominantEmotion t := by
  unfold detectDominantEmotion specDominantEmotion
  simp only [emotionKeywords, List.map_cons, List.map_nil, List.all_cons, List.all_nil,
    Bool.and_true, Bool.and_eq_true, beq_iff_eq]
  rw [pyMaxByVal_five]
  split_ifs <;> first | rfl | omega

/-- C7 counterexample: with 32 words and theme score 3 the exact ratio is
93.75; the code truncates (`int`) to 93, while the claimed `round` gives
94 — so `consistencyScore = clamp(round(...), 0, 100)` is false here. -/
theorem consistency_rounding_counterexample :
    themeScoreLookup (extractStoryText [c7Node]) (coreThemeOf (extractStoryText [c7Node])) = 3 ∧
    (pyWords (extractStoryText [c7Node])).length = 32 ∧
    (analyzeStory [c7Node] "" 0).theme_consistency.consistency_score = 93 ∧
    roundedConsistencyScore 3 32 = 94 := by
  decide

/-- C7 (amended): whenever a core theme exists (maximum theme score
positive), the consistency score is the clamped *truncated* ratio
`min 100 (themeScore[core] × 1000 / max 1 totalWordCount)` — Python
`int()` truncation rather than rounding — with `totalWordCount` the
whitespace-token count of the full concatenated text.  (The Python float
product can further deviate from this exact value by one unit in rare
cases; at the witness input the float arithmetic is exact.) -/
theorem consistency_score_formula (nodes : List Node) (p : String) (ti : Nat)
    (h : 0 < maxThemeScore (extractStoryText nodes)) :
    (analyzeStory nodes p ti).theme_consistency.consistency_score =
      min 100 (themeScoreLookup (extractStoryText nodes)
          (coreThemeOf (extractStoryText nodes)) * 1000 /
        max 1 (pyWords (extractStoryText nodes)).length) := by
  show (analyzeThemeConsistency nodes (extractStoryText nodes)).consistency_score = _
  unfold analyzeThemeConsistency
  rw [if_pos h]

/-- C7 witness: the amended formula evaluated at the concrete scene. -/
theorem consistency_score_formula_witness :
    0 < maxThemeScore (extractStoryText [c7Node]) ∧
    (analyzeStory [c7Node] "" 0).theme_consistency.consistency_score =
      min 100 (themeScoreLookup (extractStoryText [c7Node])
          (coreThemeOf (extractStoryText [c7Node])) * 1000 /
        max 1 (pyWords (extractStoryText [c7Node])).length) :=
  ⟨by decide, consistency_score_formula [c7Node] "" 0 (by decide)⟩

/-- C8 counterexample: on zero scenes no rule matches, and the emitted
fallback is spelled with an ASCII hyphen (line 332), not the em dash the
claim quotes. -/
theorem insight_fallback_counterexample :
    (analyzeStory [] "" 0).comparative_insights ≠
      ["Unique narrative structure — forge your own path!"] := by
  decide

/-- C8 (amended): the comparative-insights sequence is never empty; when
no rule matches it is exactly the one fallback string
`"Unique narrative structure - forge your own path!"` (ASCII hyphen), and
when rules match the insights appear in rule-declaration order (mystery,
ensemble, romance). -/
theorem insight_fallback_and_order (nodes : List Node) (p : String) (ti : Nat) :
    (analyzeStory nodes p ti).comparative_insights ≠ [] ∧
    (¬ mysteryRule nodes (extractStoryText nodes) →
      ¬ ensembleRule (extractStoryText nodes) →
      ¬ romanceRule (extractStoryText nodes) →
      (analyzeStory nodes p ti).comparative_insights = [fallbackInsight]) ∧
    ((mysteryRule nodes (extractStoryText nodes) ∨ ensembleRule (extractStoryText nodes) ∨
        romanceRule (extractStoryText nodes)) →
      (analyzeStory nodes p ti).comparative_insights =
        (if mysteryRule nodes (extractStoryText nodes) then [mysteryInsight] else []) ++
        (if ensembleRule (extractStoryText nodes) then [ensembleInsight] else []) ++
        (if romanceRule (extractStoryText nodes) then [romanceInsight] else [])) := by
  have key : (analyzeStory nodes p ti).comparative_insights =
      generateComparativeInsights nodes (extractStoryText nodes) := rfl
  rw [key]
  unfold generateComparativeInsights
  by_cases h1 : mysteryRule nodes (extractStoryText nodes) <;>
    by_cases h2 : ensembleRule (extractStoryText nodes) <;>
      by_cases h3 : romanceRule (extractStoryText nodes) <;>
        simp [h1, h2, h3]

/-- C8 witness: with zero scenes no rule matches and the profile carries
exactly the fallback insight. -/
theorem insight_fallback_and_order_witness :
    (analyzeStory [] "" 0).comparative_insights = [fallbackInsight] :=
  (insight_fallback_and_order [] "" 0).2.1 (by decide) (by decide) (by decide)

/-- C10: scene texts are joined by a single space with no terminator, so
sentence splitting merges the trailing fragment of scene 1 with the
leading fragment of scene 2.  `Alice` occurs only after scene 1's last
terminator and `Bob` only before scene 2's first terminator, yet the pair
receives a relationship edge (strength 1, from the merged sentence). -/
theorem sentence_spans_scene_boundary_edge :
    ((splitSentences (pyStrip (stripTags crossSceneNodeA.content.toList))).dropLast.all
      fun s => !containsSub ("alice").toList (lowerStr s)) = true ∧
    ((splitSentences (pyStrip (stripTags crossSceneNodeB.content.toList))).tail.all
      fun s => !containsSub ("bob").toList (lowerStr s)) = true ∧
    coocCount ("Alice").toList ("Bob").toList
      (pyStrip (stripTags crossSceneNodeA.content.toList)) = 0 ∧
    coocCount ("Alice").toList ("Bob").toList
      (pyStrip (stripTags crossSceneNodeB.content.toList)) = 0 ∧
    coocCount ("Alice").toList ("Bob").toList
      (extractStoryText [crossSceneNodeA, crossSceneNodeB]) = 1 ∧
    ((("Alice").toList, ("Bob").toList), (1, "connected")) ∈
      (analyzeStory [crossSceneNodeA, crossSceneNodeB] "" 0).character_development.relationship_matrix := by
  decide

/-- Each per-scene tension score is clamped to at most 100 (line 93). -/
theorem tensionScoreOfText_le_100 (t : List Char) : tensionScoreOfText t ≤ 100 :=
  Nat.min_le_left _ _

/-- Every emotional point carries a clamped tension score. -/
theorem emotionalPointsOf_tension_le (sorted : List Node) :
    ∀ pt ∈ emotionalPointsOf sorted, pt.tension ≤ 100 := by
  intro pt hpt
  rcases List.mem_map.mp hpt with ⟨p, _, rfl⟩
  exact Nat.min_le_left _ _

/-- A list of naturals bounded by `c` sums to at most `c * length`. -/
theorem sum_le_mul_length (l : List Nat) (c : Nat) (h : ∀ x ∈ l, x ≤ c) :
    l.sum ≤ c * l.length := by
  induction l with
  | nil => simp
  | cons x xs ih =>
    have hx := h x (List.mem_cons_self x xs)
    have hxs := ih (fun y hy => h y (List.mem_cons_of_mem x hy))
    simp only [List.sum_cons, List.length_cons]
    calc x + xs.sum ≤ c + c * xs.length := Nat.add_le_add hx hxs
    _ = c * (xs.length + 1) := by ring

/-- The floor of the mean of a list bounded by `c` is at most `c`. -/
theorem sum_div_length_le (l : List Nat) (c : Nat) (h : ∀ x ∈ l, x ≤ c) :
    l.sum / l.length ≤ c := by
  rcases Nat.eq_zero_or_pos l.length with h0 | hpos
  · simp [h0]
  · calc l.sum / l.length ≤ c * l.length / l.length :=
      Nat.div_le_div_right (sum_le_mul_length l c h)
    _ = c := Nat.mul_div_cancel c hpos

/-- The per-scene tension scores inside the assembled arc are ≤ 100. -/
theorem analyzeEmotionalArc_points_le (nodes : List Node) :
    ∀ pt ∈ (analyzeEmotionalArc nodes).emotional_points, pt.tension ≤ 100 := by
  intro pt hpt
  have h : pt ∈ emotionalPointsOf (sortNodes nodes) := by
    unfold analyzeEmotionalArc at hpt
    dsimp only at hpt
    split at hpt <;> exact hpt
  exact emotionalPointsOf_tension_le _ pt h

/-- The overall tension score — floor of the mean of clamped per-scene
scores — is ≤ 100. -/
theorem analyzeEmotionalArc_tension_le (nodes : List Node) :
    (analyzeEmotionalArc nodes).tension_score ≤ 100 := by
  unfold analyzeEmotionalArc
  dsimp only
  split
  · exact Nat.zero_le _
  · exact sum_div_length_le _ 100 (fun x hx => by
      rcases List.mem_map.mp hx with ⟨n, _, rfl⟩
      exact tensionScoreOfText_le_100 _)

/-- The theme-consistency score is clamped to ≤ 100 (line 254). -/
theorem analyzeThemeConsistency_score_le (nodes : List Node) (t : List Char) :
    (analyzeThemeConsistency nodes t).consistency_score ≤ 100 := by
  unfold analyzeThemeConsistency
  split
  · exact Nat.min_le_left _ _
  · exact Nat.zero_le _

/-- Every reported character-arc strength is clamped to ≤ 10 (line 225). -/
theorem analyzeCharacterDevelopment_arcs_le (t : List Char) :
    ∀ a ∈ (analyzeCharacterDevelopment t).character_arcs, a.arc_strength ≤ 10 := by
  intro a ha
  rcases List.mem_map.mp ha with ⟨c, _, rfl⟩
  exact Nat.min_le_left _ _

/-- Every recorded relationship strength is `min 10` of a positive
co-occurrence count, hence in `[1, 10]` (lines 204–208). -/
theorem buildRelationshipMatrix_strength_bounds (chars : List (List Char)) (t : List Char) :
    ∀ e ∈ buildRelationshipMatrix chars t, 1 ≤ e.2.1 ∧ e.2.1 ≤ 10 := by
  intro e he
  unfold buildRelationshipMatrix at he
  split at he
  · simp at he
  · rcases List.mem_flatMap.mp he with ⟨p, _, hin⟩
    rcases List.mem_filterMap.mp hin with ⟨c2, _, hsome⟩
    dsimp only at hsome
    split at hsome
    · rename_i hk
      cases hsome
      exact ⟨le_min (by norm_num) hk, Nat.min_le_left _ _⟩
    · cases hsome

/-- The pacing score is clamped into `[10, 100]` (line 305). -/
theorem analyzePacing_score_bounds (nodes : List Node) (t : List Char) :
    10 ≤ (analyzePacing nodes t).pacing_score ∧ (analyzePacing nodes t).pacing_score ≤ 100 :=
  ⟨le_min (by norm_num) (Nat.le_max_left _ _), Nat.min_le_left _ _⟩

/-- C3: range invariants.  Every per-scene and the overall tension score
and the consistency score are at most 100; every character-arc strength
and every relationship-edge strength is at most 10 (edges are in fact at
least 1); the pacing score lies in `[10, 100]`.  All scores are naturals,
so the claimed lower bounds 0 hold by construction. -/
theorem range_invariants (nodes : List Node) (p : String) (ti : Nat) :
    (∀ pt ∈ (analyzeStory nodes p ti).emotional_arc.emotional_points, pt.tension ≤ 100) ∧
    (analyzeStory nodes p ti).emotional_arc.tension_score ≤ 100 ∧
    (analyzeStory nodes p ti).theme_consistency.consistency_score ≤ 100 ∧
    (∀ a ∈ (analyzeStory nodes p ti).character_development.character_arcs,
      a.arc_strength ≤ 10) ∧
    (∀ e ∈ (analyzeStory nodes p ti).character_development.relationship_matrix,
      1 ≤ e.2.1 ∧ e.2.1 ≤ 10) ∧
    10 ≤ (analyzeStory nodes p ti).pacing_analysis.pacing_score ∧
    (analyzeStory nodes p ti).pacing_analysis.pacing_score ≤ 100 :=
  ⟨analyzeEmotionalArc_points_le nodes,
   analyzeEmotionalArc_tension_le nodes,
   analyzeThemeConsistency_score_le nodes (extractStoryText nodes),
   analyzeCharacterDevelopment_arcs_le (extractStoryText nodes),
   buildRelationshipMatrix_strength_bounds _ _,
   (analyzePacing_score_bounds nodes (extractStoryText nodes)).1,
   (analyzePacing_score_bounds nodes (extractStoryText nodes)).2⟩

/-- C3 witness: the strength bound instantiated at the concrete edge of
the two-scene input. -/
theorem range_invariants_witness :
    1 ≤ (((("Alice").toList, ("Bob").toList), ((1 : Nat), "connected")).2.1) ∧
    ((("Alice").toList, ("Bob").toList), ((1 : Nat), "connected")).2.1 ≤ 10 :=
  (range_invariants [crossSceneNodeA, crossSceneNodeB] "" 0).2.2.2.2.1
    ((("Alice").toList, ("Bob").toList), (1, "connected")) (by decide)

/-- The accumulator fold behind `firstOccs` preserves distinctness. -/
theorem foldl_insert_nodup (l : List (List Char)) :
    ∀ acc : List (List Char), acc.Nodup →
      (l.foldl (fun acc w => if w ∈ acc then acc else acc ++ [w]) acc).Nodup := by
  induction l with
  | nil => intro acc h; exact h
  | cons x xs ih =>
    intro acc h
    simp only [List.foldl_cons]
    by_cases hx : x ∈ acc
    · rw [if_pos hx]; exact ih acc h
    · rw [if_neg hx]
      exact ih _ (by simp [List.nodup_append, h, hx])

/-- Counter keys are pairwise distinct. -/
theorem firstOccs_nodup (l : List (List Char)) : (firstOccs l).Nodup :=
  foldl_insert_nodup l [] List.nodup_nil

/-- The candidate name pool contains no duplicate name. -/
theorem extractCharacterNames_nodup (t : List Char) : (extractCharacterNames t).Nodup :=
  List.Nodup.sublist (List.take_sublist _ _)
    (List.Nodup.filter _ (firstOccs_nodup (findNameTokens t)))

/-- Forward half of C6: every recorded edge joins the `i`-th and `j`-th
candidates for some `i < 5`, `i < j < 6`; its two names are distinct when
the candidate list is, its co-occurrence count is positive, its strength
is `min 10` of that count, and its type is `"connected"`. -/
theorem buildRelationshipMatrix_mem_elim (chars : List (List Char)) (t : List Char)
    (hnd : chars.Nodup) :
    ∀ e ∈ buildRelationshipMatrix chars t,
      e.1.1 ≠ e.1.2 ∧ e.2.2 = "connected" ∧ 0 < coocCount e.1.1 e.1.2 t ∧
      e.2.1 = min 10 (coocCount e.1.1 e.1.2 t) ∧
      ∃ (i j : Nat) (hi : i < chars.length) (hj : j < chars.length),
        i < 5 ∧ i < j ∧ j < 6 ∧
        e.1.1 = chars.get ⟨i, hi⟩ ∧ e.1.2 = chars.get ⟨j, hj⟩ := by
  intro e he
  unfold buildRelationshipMatrix at he
  split at he
  · simp at he
  · rcases List.mem_flatMap.mp he with ⟨p, hp, hin⟩
    obtain ⟨i, c1⟩ := p
    rcases List.mem_filterMap.mp hin with ⟨c2, hc2, hsome⟩
    dsimp only at hsome
    split at hsome
    · rename_i hk
      cases hsome
      have h1 : (chars.take 5)[i]? = some c1 := List.mk_mem_enum_iff_getElem?.mp hp
      rw [List.getElem?_take] at h1
      split at h1
      · rename_i h5
        rcases List.getElem?_eq_some.mp h1 with ⟨hi, hc1⟩
        rcases List.mem_iff_getElem?.mp hc2 with ⟨m, hm⟩
        rw [List.getElem?_drop, List.getElem?_take] at hm
        split at hm
        · rename_i h6
          rcases List.getElem?_eq_some.mp hm with ⟨hj, hc2eq⟩
          have hne : c1 ≠ c2 := by
            rw [← hc1, ← hc2eq]
            intro hcontra
            have := (List.Nodup.getElem_inj_iff hnd).mp hcontra
            omega
          exact ⟨hne, rfl, hk, rfl, i, i + 1 + m, hi, hj, h5, by omega, h6,
            by rw [← hc1, List.get_eq_getElem], by rw [← hc2eq, List.get_eq_getElem]⟩
        · cases hm
      · cases h1
    · cases hsome

/-- Backward half of C6: a valid index pair with positive sentence
co-occurrence always yields the corresponding recorded edge. -/
theorem buildRelationshipMatrix_mem_intro (chars : List (List Char)) (t : List Char)
    (i j : Nat) (hi : i < chars.length) (hj : j < chars.length)
    (h5 : i < 5) (hij : i < j) (h6 : j < 6)
    (hk : 0 < coocCount (chars.get ⟨i, hi⟩) (chars.get ⟨j, hj⟩) t) :
    ((chars.get ⟨i, hi⟩, chars.get ⟨j, hj⟩),
      (min 10 (coocCount (chars.get ⟨i, hi⟩) (chars.get ⟨j, hj⟩) t), "connected")) ∈
      buildRelationshipMatrix chars t := by
  unfold buildRelationshipMatrix
  rw [if_neg (by omega)]
  refine List.mem_flatMap.mpr ⟨(i, chars.get ⟨i, hi⟩), ?_, ?_⟩
  · refine List.mk_mem_enum_iff_getElem?.mpr ?_
    rw [List.getElem?_take, if_pos h5, List.getElem?_eq_getElem hi, List.get_eq_getElem]
  · refine List.mem_filterMap.mpr ⟨chars.get ⟨j, hj⟩, ?_, ?_⟩
    · refine List.mem_iff_getElem?.mpr ⟨j - (i + 1), ?_⟩
      rw [List.getElem?_drop, List.getElem?_take]
      have harith : i + 1 + (j - (i + 1)) = j := by omega
      rw [harith, if_pos h6, List.getElem?_eq_getElem hj, List.get_eq_getElem]
    · dsimp only
      rw [if_pos hk]

/-- C6: over the candidate pool extracted from the full text, the
relationship matrix never records a self-pair; each edge is keyed by
`(candidates[i], candidates[j])` with `i < 5`, `i < j < 6`, carries
`strength = min 10 count` for its positive sentence co-occurrence count
`count` (hence strength in `[1,10]`) and type `"connected"`; conversely an
edge is present whenever the co-occurrence count of such an index pair is
positive — i.e. presence holds exactly for positive counts. -/
theorem relationship_matrix_characterization (t : List Char) :
    (∀ e ∈ buildRelationshipMatrix (extractCharacterNames t) t,
      e.1.1 ≠ e.1.2 ∧ e.2.2 = "connected" ∧ 0 < coocCount e.1.1 e.1.2 t ∧
      e.2.1 = min 10 (coocCount e.1.1 e.1.2 t) ∧
      ∃ (i j : Nat) (hi : i < (extractCharacterNames t).length)
        (hj : j < (extractCharacterNames t).length),
        i < 5 ∧ i < j ∧ j < 6 ∧
        e.1.1 = (extractCharacterNames t).get ⟨i, hi⟩ ∧
        e.1.2 = (extractCharacterNames t).get ⟨j, hj⟩) ∧
    (∀ (i j : Nat) (hi : i < (extractCharacterNames t).length)
        (hj : j < (extractCharacterNames t).length),
      i < 5 → i < j → j < 6 →
      0 < coocCount ((extractCharacterNames t).get ⟨i, hi⟩)
          ((extractCharacterNames t).get ⟨j, hj⟩) t →
      (((extractCharacterNames t).get ⟨i, hi⟩, (extractCharacterNames t).get ⟨j, hj⟩),
        (min 10 (coocCount ((extractCharacterNames t).get ⟨i, hi⟩)
            ((extractCharacterNames t).get ⟨j, hj⟩) t), "connected")) ∈
        buildRelationshipMatrix (extractCharacterNames t) t) :=
  ⟨buildRelationshipMatrix_mem_elim _ t (extractCharacterNames_nodup t),
   fun i j hi hj h5 hij h6 hk =>
     buildRelationshipMatrix_mem_intro _ t i j hi hj h5 hij h6 hk⟩

/-- C6 witness: the backward direction instantiated at the two-scene
input, pair (0, 1) — the `Alice`/`Bob` edge. -/
theorem relationship_matrix_characterization_witness :
    (((extractCharacterNames (extractStoryText [crossSceneNodeA, crossSceneNodeB])).get
        ⟨0, by decide⟩,
      (extractCharacterNames (extractStoryText [crossSceneNodeA, crossSceneNodeB])).get
        ⟨1, by decide⟩),
      (min 10 (coocCount
        ((extractCharacterNames (extractStoryText [crossSceneNodeA, crossSceneNodeB])).get
          ⟨0, by decide⟩)
        ((extractCharacterNames (extractStoryText [crossSceneNodeA, crossSceneNodeB])).get
          ⟨1, by decide⟩)
        (extractStoryText [crossSceneNodeA, crossSceneNodeB])), "connected")) ∈
      buildRelationshipMatrix
        (extractCharacterNames (extractStoryText [crossSceneNodeA, crossSceneNodeB]))
        (extractStoryText [crossSceneNodeA, crossSceneNodeB]) :=
  (relationship_matrix_characterization (extractStoryText [crossSceneNodeA, crossSceneNodeB])).2
    0 1 (by decide) (by decide) (by decide) (by decide) (by decide) (by decide)

end StoryAnalysis
